import Mathlib

/-!
# Verification of the snack-dispenser controller

Shallow embedding of `src/snack_dispenser.c`: the event-driven state machine of
`main`, the non-blocking animation engine (`anim_start` / `anim_tick`), the idle
countdown (`timer_seconds_left` and friends), the dispense synchronizer
(`run_one_dispense_cycle_with_anim` and the dispensing bursts), and the
service-mode port mapping (`set_port_mapping`).

Modeling conventions:
* Time is an explicit `Int` counter of microseconds of elapsed sleep; the C
  `now_ms()` monotonic millisecond clock is `t / 1000`.  `usleep(x)` advances
  the counter by `x`.  Beeps, LCD writes and image rendering are modeled as
  taking no time (they do not influence any control decision in the source).
* Display side effects (`show_image`, `lcd_print2`, 7-segment writes) are not
  recorded; the states they read (`last_shown`, the blink flags, animation
  frame indices) are tracked exactly.  An animation tick returns the index of
  the frame it requested to display (the `frames` pointer of the C `Anim` is
  represented by frame indices; the `file_exists` fallback image substitution
  does not change which frame index was due).
* Audible cues and stepper-motor phase writes are recorded as events.  The
  final `CM3_outport(gSmPort, 0x00)` motor-stop write is not an event (it is
  not a call of the phase driver `motor_write_phase`).
* The unbounded `while (!gDispAnim.oneshot_done)` drain loops are modeled with
  an explicit fuel parameter; `drainAnim_completes` below shows fuel `164`
  always suffices, which is why the C loop terminates.
* C `int` / `long long` arithmetic is modeled on unbounded `Int` (no value in
  the program approaches the overflow bounds); `atoi` on the digit-only input
  buffers is `bufVal`; out-of-range catalog accesses (impossible in reachable
  states, undefined behavior in C) are modeled as reading stock `0` / skipping
  the write.
-/

/-! ## Constants from the source -/

def IDLE_MS : Int := 9000
def SVC_GATE_TIMEOUT_MS : Int := 8000
def RETURN_GATE_TIMEOUT_MS : Int := 8000
def MAX_COUNT : Int := 15
def DOOR_FRAME_MS : Int := 800
def DISP_FRAME_MS : Int := DOOR_FRAME_MS
def DOOR_N : Int := 4
def DISP_N : Int := 4
def TOTAL_STEPS_PER_ITEM : Nat := 60
def DISPENSE_CYCLE_US : Int := 3000000
def DISP_PHASE_DELAY_US : Int := DISPENSE_CYCLE_US / (TOTAL_STEPS_PER_ITEM * 4 : Nat)
def MOTOR_STEPS_PER_CYCLE : Nat := 18
def MOTOR_PHASE_DELAY_US : Int := 4500

/-! ## Port mapping (`set_port_mapping`) -/

/-- The four runtime port registers `gLedPort`, `gLcdPort`, `gSmPort`, `gKbdPort`. -/
structure PortMap where
  led : Int
  lcd : Int
  sm : Int
  kbd : Int
deriving DecidableEq

def PORTS_NORMAL : PortMap := ⟨0x3A, 0x3B, 0x39, 0x3C⟩
def PORTS_ADMIN : PortMap := ⟨0x1A, 0x1B, 0x19, 0x1C⟩

/-- Mirrors `set_port_mapping(int admin)`. -/
def set_port_mapping (admin : Bool) : PortMap :=
  if admin then PORTS_ADMIN else PORTS_NORMAL

/-! ## Animation engine (`Anim`, `anim_start`, `anim_tick`) -/

/-- Mirrors the C `Anim` struct; `frames`/`nframes` are kept as the frame count,
a display request is reported as the due frame index. -/
structure Anim where
  active : Bool
  nframes : Int
  idx : Int
  direction : Int
  next_ms : Int
  frame_ms : Int
  oneshot_done : Bool
deriving DecidableEq

/-- The zero-initialized global `Anim` (C statics start zeroed). -/
def animZero : Anim := ⟨false, 0, 0, 0, 0, 0, false⟩

/-- Mirrors `anim_start`; `now` is the millisecond clock at the call. -/
def anim_start (nframes direction frame_ms now : Int) : Anim :=
  let dir : Int := if direction ≥ 0 then 1 else -1
  { active := true
    nframes := nframes
    idx := if dir > 0 then 0 else nframes - 1
    direction := dir
    next_ms := now
    frame_ms := frame_ms
    oneshot_done := false }

/-- Mirrors `anim_tick`; `t` is the millisecond clock at the call.  Returns the
updated track and the index of the frame whose display was requested (if due). -/
def anim_tick (a : Anim) (t : Int) : Anim × Option Int :=
  if a.active = false ∨ a.oneshot_done = true then (a, none)
  else if t < a.next_ms then (a, none)
  else
    let shown := a.idx
    let a1 := { a with next_ms := t + a.frame_ms }
    if a1.direction > 0 then
      if a1.idx = a1.nframes - 1 then
        ({ a1 with oneshot_done := true, active := false }, some shown)
      else
        ({ a1 with idx := a1.idx + 1 }, some shown)
    else
      if a1.idx = 0 then
        ({ a1 with oneshot_done := true, active := false }, some shown)
      else
        ({ a1 with idx := a1.idx - 1 }, some shown)

/-! ## Idle countdown (`timer_seconds_left`) -/

/-- Mirrors `timer_seconds_left`; the global `idle_deadline` is passed
explicitly, `t` is the millisecond clock. -/
def timer_seconds_left (idle_deadline t : Int) : Int :=
  if idle_deadline ≤ 0 then -1
  else
    let rem := idle_deadline - t
    if rem ≤ 0 then 0
    else
      let sec := (rem + 999) / 1000
      let sec := if sec > 9 then 9 else sec
      let sec := if sec < 0 then 0 else sec
      sec

/-! ## Dispense synchronizer (`run_one_dispense_cycle_with_anim`) -/

/-- Specification sequence of phase indices: `n` consecutive values mod 4
starting from `ph`.  Used to characterize the motor phase writes. -/
def phaseSeq : Nat → Nat → List Nat
  | _, 0 => []
  | ph, n + 1 => ph % 4 :: phaseSeq (ph + 1) n

/-- Inner loop of `run_one_dispense_cycle_with_anim`: `n` iterations of
"write current phase; advance phase mod 4; tick the dispensing animation;
sleep `DISP_PHASE_DELAY_US`".  Returns (phase, animation, clock, writes). -/
def dispPhaseSteps : Nat → Nat → Anim → Int → Nat × Anim × Int × List Nat
  | 0, ph, a, t => (ph, a, t, [])
  | n + 1, ph, a, t =>
    let w := ph % 4
    let ph1 := (ph + 1) % 4
    let a1 := (anim_tick a (t / 1000)).1
    let t1 := t + DISP_PHASE_DELAY_US
    let r := dispPhaseSteps n ph1 a1 t1
    (r.1, r.2.1, r.2.2.1, w :: r.2.2.2)

/-- Outer loop of `run_one_dispense_cycle_with_anim`: `s` steps, each an
animation tick followed by four phase sub-steps. -/
def dispCycleSteps : Nat → Nat → Anim → Int → Nat × Anim × Int × List Nat
  | 0, ph, a, t => (ph, a, t, [])
  | s + 1, ph, a, t =>
    let a1 := (anim_tick a (t / 1000)).1
    let r1 := dispPhaseSteps 4 ph a1 t
    let r2 := dispCycleSteps s r1.1 r1.2.1 r1.2.2.1
    (r2.1, r2.2.1, r2.2.2.1, r1.2.2.2 ++ r2.2.2.2)

/-- Mirrors `run_one_dispense_cycle_with_anim` (the module-static `phase` is
threaded explicitly; the trailing motor-stop port write is not a phase write). -/
def run_one_dispense_cycle_with_anim (ph : Nat) (a : Anim) (t : Int) :
    Nat × Anim × Int × List Nat :=
  dispCycleSteps TOTAL_STEPS_PER_ITEM ph a t

/-- The `for (i = 0; i < amount; i++)` unit loop of the dispensing bursts,
including the 150 ms pause between units (`if (i != amount-1) usleep(150000)`). -/
def dispenseUnits : Nat → Nat → Anim → Int → Nat × Anim × Int × List Nat
  | 0, ph, a, t => (ph, a, t, [])
  | n + 1, ph, a, t =>
    let r1 := run_one_dispense_cycle_with_anim ph a t
    let t1 := if n = 0 then r1.2.2.1 else r1.2.2.1 + 150000
    let r2 := dispenseUnits n r1.1 r1.2.1 t1
    (r2.1, r2.2.1, r2.2.2.1, r1.2.2.2 ++ r2.2.2.2)

/-- Mirrors `while (!gDispAnim.oneshot_done) { anim_tick(&gDispAnim); usleep(20000); }`,
with explicit fuel (the loop is proved to need at most 164 iterations). -/
def drainAnim : Nat → Anim → Int → Anim × Int
  | 0, a, t => (a, t)
  | f + 1, a, t =>
    if a.oneshot_done then (a, t)
    else drainAnim f (anim_tick a (t / 1000)).1 (t + 20000)

/-- The complete `ST_DISPENSING` burst of `main` (lines 747-759): arm the
dispensing track if it is idle, run `amount` dispense cycles, then tick the
animation alone until completion. -/
def st_dispensing_burst (fuel : Nat) (amount : Int) (ph : Nat) (a : Anim) (t : Int) :
    Nat × Anim × Int × List Nat :=
  let a0 := if a.active = false ∧ a.oneshot_done = false
            then anim_start DISP_N 1 DISP_FRAME_MS (t / 1000) else a
  let r := dispenseUnits amount.toNat ph a0 t
  let d := drainAnim fuel r.2.1 r.2.2.1
  (r.1, d.1, d.2, r.2.2.2)

/-! ## Service motor test (`motor_spin_one_cycle`, `run_motor_test_cycles`) -/

/-- Consecutive phase writes without animation interleaving (the body of
`motor_spin_one_cycle`, `n` individual phase writes). -/
def motorSeqRun : Nat → Nat → List Nat × Nat
  | 0, ph => ([], ph)
  | n + 1, ph =>
    let r := motorSeqRun n ((ph + 1) % 4)
    (ph % 4 :: r.1, r.2)

/-- Mirrors `motor_spin_one_cycle` (its module-static `phase` threaded explicitly). -/
def motor_spin_one_cycle (ph : Nat) : List Nat × Nat :=
  motorSeqRun (MOTOR_STEPS_PER_CYCLE * 4) ph

/-- The cycle loop of `run_motor_test_cycles` with its 0.5 s pauses. -/
def motorTestLoop : Nat → Nat → Int → List Nat × Nat × Int
  | 0, ph, t => ([], ph, t)
  | c + 1, ph, t =>
    let r1 := motor_spin_one_cycle ph
    let t1 := t + (MOTOR_STEPS_PER_CYCLE * 4 : Nat) * MOTOR_PHASE_DELAY_US + 500000
    let r2 := motorTestLoop c r1.2 t1
    (r1.1 ++ r2.1, r2.2.1, r2.2.2)

/-- Mirrors `run_motor_test_cycles` including its 1..15 clamp. -/
def run_motor_test_cycles (cycles : Int) (ph : Nat) (t : Int) : List Nat × Nat × Int :=
  let c := if cycles < 1 then 1 else if cycles > 15 then 15 else cycles
  motorTestLoop c.toNat ph t

/-! ## Items, keys, input buffers -/

/-- Catalog entry; `name`, `price` and the image references of the C `Item` are
omitted (no control decision reads them). -/
structure Item where
  index : Int
  stock : Int
deriving DecidableEq

/-- The catalog initialized in `main` (indices 3/8/11/22, stocks 1/2/3/4). -/
def initialItems : List Item := [⟨3, 1⟩, ⟨8, 2⟩, ⟨11, 3⟩, ⟨22, 4⟩]

/-- Mirrors `find_slot_by_index`: position of the item with selection index
`idx`, or `-1`. -/
def findSlotAux : List Item → Int → Int → Int
  | [], _, _ => -1
  | it :: rest, idx, pos => if it.index = idx then pos else findSlotAux rest idx (pos + 1)

def find_slot_by_index (items : List Item) (idx : Int) : Int :=
  findSlotAux items idx 0

/-- Stock of the item at position `i` (0 outside the list; reachable states
only read valid positions). -/
def stockAt : List Item → Int → Int
  | [], _ => 0
  | it :: rest, i => if i = 0 then it.stock else stockAt rest (i - 1)

/-- Absolute stock write `items[i].stock = v` (service restock). -/
def setStockAt : List Item → Int → Int → List Item
  | [], _, _ => []
  | it :: rest, i, v =>
    if i = 0 then { it with stock := v } :: rest
    else it :: setStockAt rest (i - 1) v

/-- The customer dispense stock update:
`items[i].stock -= amt; if (items[i].stock < 0) items[i].stock = 0;`. -/
def decStockClamp : List Item → Int → Int → List Item
  | [], _, _ => []
  | it :: rest, i, amt =>
    if i = 0 then
      let ns := it.stock - amt
      { it with stock := if ns < 0 then 0 else ns } :: rest
    else it :: decStockClamp rest (i - 1) amt

/-- Mirrors `isdigit` on the scan codes (`'0'`..`'9'`). -/
def isdigit (c : Char) : Bool := 48 ≤ c.toNat && c.toNat ≤ 57

/-- Mirrors `atoi` on the digit-only input buffers. -/
def bufVal (buf : List Char) : Int :=
  buf.foldl (fun n c => n * 10 + ((c.toNat : Int) - 48)) 0

/-- Every character of the buffer is a decimal digit (all reachable buffers). -/
def digitsOnly (buf : List Char) : Prop := ∀ c ∈ buf, isdigit c = true

instance (buf : List Char) : Decidable (digitsOnly buf) := by
  unfold digitsOnly; infer_instance

/-! ## Controller state -/

/-- The `enum` of `main` (states of the purchase/service state machine). -/
inductive St where
  | menu | amount | pay
  | svcGate | returnGate
  | doorOpening | doorClosing
  | svcMenu
  | svcDispenseIdx | svcDispenseAmt | svcRestockIdx | svcRestockQty
  | svcSoundSel | svcMotorCyc
  | dispensing
deriving DecidableEq

/-- Recorded side effects of one poll-loop iteration: audible cues and stepper
phase-driver writes. -/
inductive Ev where
  | beepKeypress | beepError | beepSuccess | beepPaymentOk
  | beepDispSlot (slot : Int)
  | motorWrite (phase : Nat)
deriving DecidableEq

/-- All mutable controller state of `main` and of the file-scope statics. -/
structure Sys where
  st : St
  selbuf : List Char
  amtbuf : List Char
  svcbuf : List Char
  chosen_slot : Int
  amount : Int
  pay_zero_count : Int
  index_timer_active : Bool
  service_mode : Int
  svc_gate_deadline : Int
  return_gate_deadline : Int
  svc_disp_slot : Int
  restock_slot : Int
  items : List Item
  idle_deadline : Int
  last_shown : Int
  svc_blink_next : Int
  svc_blink_on : Bool
  ports : PortMap
  door : Anim
  disp : Anim
  disp_phase : Nat
  motor_phase : Nat
deriving DecidableEq

/-- Mirrors `timer_start_or_reset` (`now` in ms). -/
def timer_start_or_reset (s : Sys) (now : Int) : Sys :=
  { s with idle_deadline := now + IDLE_MS, last_shown := -1 }

/-- Mirrors `timer_update_display` (the 7-segment write itself is not recorded). -/
def timer_update_display (s : Sys) (now : Int) : Sys :=
  let left := timer_seconds_left s.idle_deadline now
  if left < 0 then s
  else if left ≠ s.last_shown then { s with last_shown := left } else s

/-- Mirrors `timer_stop_and_blank`. -/
def timer_stop_and_blank (s : Sys) : Sys :=
  { s with idle_deadline := 0, last_shown := -1 }

/-- Mirrors `service_blink_tick`. -/
def service_blink_tick (s : Sys) (now : Int) : Sys :=
  if s.svc_blink_next = 0 then
    { s with svc_blink_next := now + 500, svc_blink_on := true }
  else if now ≥ s.svc_blink_next then
    { s with svc_blink_next := s.svc_blink_next + 500, svc_blink_on := !s.svc_blink_on }
  else s

/-- Mirrors `service_blink_reset`. -/
def service_blink_reset (s : Sys) : Sys :=
  { s with svc_blink_next := 0, svc_blink_on := true }

/-- The state at the top of the poll loop after the initialization of `main`
(lines 600-674): all statics zeroed, catalog loaded, NORMAL port mapping. -/
def initSys : Sys :=
  { st := St.menu, selbuf := [], amtbuf := [], svcbuf := []
    chosen_slot := -1, amount := 0, pay_zero_count := 0
    index_timer_active := false, service_mode := 0
    svc_gate_deadline := 0, return_gate_deadline := 0
    svc_disp_slot := -1, restock_slot := -1
    items := initialItems, idle_deadline := 0, last_shown := -1
    svc_blink_next := 0, svc_blink_on := true
    ports := PORTS_NORMAL, door := animZero, disp := animZero
    disp_phase := 0, motor_phase := 0 }

/-- Result of one poll-loop iteration: new state, advanced clock (µs), events. -/
structure Step where
  sys : Sys
  clk : Int
  evs : List Ev
deriving DecidableEq

/-! ## Key dispatch (lines 790-1277 of `main`) -/

/-- The ENTER (`'B'`) handler of `main`.  A state/mode combination with no
matching branch falls through to the final `beep_error()` of the loop body. -/
def enterKey (fuel : Nat) (s : Sys) (t0 : Int) : Step :=
  let evs0 := [Ev.beepKeypress]
  if s.service_mode = 0 then
    if s.st = St.menu then
      if s.selbuf.length = 0 then
        ⟨s, t0 + 700000, evs0 ++ [Ev.beepError]⟩
      else if s.selbuf = ['1', '2', '3', '4'] then
        let s1 := timer_stop_and_blank { s with selbuf := [], index_timer_active := false }
        let t1 := t0 + 120000
        ⟨{ s1 with
            ports := set_port_mapping true, st := St.svcGate,
            svc_gate_deadline := t1 / 1000 + SVC_GATE_TIMEOUT_MS }, t1, evs0⟩
      else
        let slot := find_slot_by_index s.items (bufVal s.selbuf)
        let s1 := timer_stop_and_blank { s with
            chosen_slot := slot, selbuf := [], index_timer_active := false }
        if slot < 0 then
          ⟨s1, t0 + 1200000, evs0 ++ [Ev.beepError]⟩
        else if stockAt s1.items slot ≤ 0 then
          ⟨{ s1 with chosen_slot := -1 }, t0 + 4500000, evs0⟩
        else
          let s2 := timer_start_or_reset { s1 with st := St.amount, amtbuf := [] } (t0 / 1000)
          ⟨timer_update_display s2 (t0 / 1000), t0, evs0⟩
    else if s.st = St.amount then
      if s.amtbuf.length = 0 then
        ⟨s, t0 + 700000, evs0 ++ [Ev.beepError]⟩
      else
        let amt := bufVal s.amtbuf
        let s1 := { s with amount := amt }
        if amt < 1 ∨ amt > MAX_COUNT then
          ⟨{ s1 with amtbuf := [] }, t0 + 700000, evs0 ++ [Ev.beepError]⟩
        else if amt > stockAt s1.items s1.chosen_slot then
          ⟨{ s1 with amtbuf := [] }, t0 + 700000, evs0 ++ [Ev.beepError]⟩
        else
          let s2 := timer_start_or_reset { s1 with st := St.pay, pay_zero_count := 0 } (t0 / 1000)
          ⟨timer_update_display s2 (t0 / 1000), t0, evs0⟩
    else
      ⟨s, t0, evs0 ++ [Ev.beepError]⟩
  else
    if s.st = St.svcMenu then
      if s.selbuf = ['1', '2', '3', '4'] then
        let t1 := t0 + 120000
        ⟨{ s with
            selbuf := [], ports := set_port_mapping false, st := St.returnGate,
            return_gate_deadline := t1 / 1000 + RETURN_GATE_TIMEOUT_MS }, t1, evs0⟩
      else if s.selbuf = ['1'] then
        ⟨{ s with svcbuf := [], st := St.svcDispenseIdx, selbuf := [] }, t0, evs0⟩
      else if s.selbuf = ['2'] then
        ⟨{ s with svcbuf := [], st := St.svcRestockIdx, selbuf := [] }, t0, evs0⟩
      else if s.selbuf = ['3'] then
        ⟨{ s with svcbuf := [], st := St.svcSoundSel, selbuf := [] }, t0, evs0⟩
      else if s.selbuf = ['4'] then
        ⟨{ s with svcbuf := [], st := St.svcMotorCyc, selbuf := [] }, t0, evs0⟩
      else
        ⟨{ s with selbuf := [] }, t0 + 700000, evs0 ++ [Ev.beepError]⟩
    else if s.st = St.svcDispenseIdx then
      if s.svcbuf.length = 0 then
        ⟨s, t0 + 700000, evs0 ++ [Ev.beepError]⟩
      else
        let slot := find_slot_by_index s.items (bufVal s.svcbuf)
        if slot < 0 then
          ⟨{ s with svc_disp_slot := slot, svcbuf := [] }, t0 + 700000, evs0 ++ [Ev.beepError]⟩
        else
          ⟨{ s with svc_disp_slot := slot, svcbuf := [], st := St.svcDispenseAmt }, t0, evs0⟩
    else if s.st = St.svcDispenseAmt then
      if s.svcbuf.length = 0 then
        ⟨s, t0 + 700000, evs0 ++ [Ev.beepError]⟩
      else
        let a := bufVal s.svcbuf
        if a < 1 ∨ a > 15 then
          ⟨{ s with svcbuf := [] }, t0 + 700000, evs0 ++ [Ev.beepError]⟩
        else
          let a0 := anim_start DISP_N 1 DISP_FRAME_MS (t0 / 1000)
          let r := dispenseUnits a.toNat s.disp_phase a0 t0
          let d := drainAnim fuel r.2.1 r.2.2.1
          ⟨{ s with
              st := St.svcMenu, svcbuf := [], svc_disp_slot := -1,
              disp := d.1, disp_phase := r.1 }, d.2 + 1200000,
            evs0 ++ r.2.2.2.map Ev.motorWrite ++ [Ev.beepSuccess]⟩
    else if s.st = St.svcRestockIdx then
      if s.svcbuf.length = 0 then
        ⟨s, t0 + 700000, evs0 ++ [Ev.beepError]⟩
      else
        let slot := find_slot_by_index s.items (bufVal s.svcbuf)
        if slot < 0 then
          ⟨{ s with restock_slot := slot, svcbuf := [] }, t0 + 700000, evs0 ++ [Ev.beepError]⟩
        else
          ⟨{ s with restock_slot := slot, svcbuf := [], st := St.svcRestockQty }, t0, evs0⟩
    else if s.st = St.svcRestockQty then
      if s.svcbuf.length = 0 then
        ⟨s, t0 + 700000, evs0 ++ [Ev.beepError]⟩
      else
        let v := bufVal s.svcbuf
        if v < 1 ∨ v > 15 then
          ⟨{ s with svcbuf := [] }, t0 + 700000, evs0 ++ [Ev.beepError]⟩
        else
          ⟨{ s with
              items := setStockAt s.items s.restock_slot v, st := St.svcMenu,
              restock_slot := -1, svcbuf := [] }, t0 + 1200000, evs0 ++ [Ev.beepSuccess]⟩
    else if s.st = St.svcSoundSel then
      if s.svcbuf.length = 0 then
        ⟨s, t0 + 700000, evs0 ++ [Ev.beepError]⟩
      else
        let v := bufVal s.svcbuf
        if v < 1 ∨ v > 8 then
          ⟨{ s with svcbuf := [] }, t0 + 700000, evs0 ++ [Ev.beepError]⟩
        else
          let cue := if v = 1 then [Ev.beepKeypress]
            else if v = 2 then [Ev.beepError]
            else if v = 3 then [Ev.beepSuccess]
            else if v = 4 then [Ev.beepPaymentOk]
            else [Ev.beepDispSlot (v - 4)]
          ⟨{ s with svcbuf := [] }, t0 + 1000000, evs0 ++ cue⟩
    else if s.st = St.svcMotorCyc then
      if s.svcbuf.length = 0 then
        ⟨s, t0 + 700000, evs0 ++ [Ev.beepError]⟩
      else
        let c := bufVal s.svcbuf
        if c < 1 ∨ c > 15 then
          ⟨{ s with svcbuf := [] }, t0 + 700000, evs0 ++ [Ev.beepError]⟩
        else
          let r := run_motor_test_cycles c s.motor_phase t0
          ⟨{ s with svcbuf := [], motor_phase := r.2.1 }, r.2.2,
            evs0 ++ r.1.map Ev.motorWrite ++ [Ev.beepSuccess]⟩
    else
      ⟨s, t0, evs0 ++ [Ev.beepError]⟩

/-- Dispatch of an accepted keypress (lines 790-1277): gate confirmations,
BACK, digits, ENTER, and the trailing `beep_error()` for anything else. -/
def dispatchKey (fuel : Nat) (s : Sys) (t0 : Int) (k : Char) : Step :=
  let evs0 := [Ev.beepKeypress]
  if s.st = St.svcGate then
    ⟨service_blink_reset { s with
        svc_gate_deadline := 0, service_mode := 1, st := St.doorOpening,
        door := anim_start DOOR_N 1 DOOR_FRAME_MS (t0 / 1000) }, t0, evs0⟩
  else if s.st = St.returnGate then
    ⟨{ s with
        return_gate_deadline := 0, st := St.doorClosing,
        door := anim_start DOOR_N (-1) DOOR_FRAME_MS (t0 / 1000) }, t0, evs0⟩
  else if k = 'A' then
    if s.service_mode = 0 then
      if s.st = St.menu then
        let sel1 := if s.selbuf.length > 0 then s.selbuf.dropLast else s.selbuf
        let s1 := { s with selbuf := sel1 }
        if sel1.length = 0 then
          ⟨timer_stop_and_blank { s1 with index_timer_active := false }, t0, evs0⟩
        else ⟨s1, t0, evs0⟩
      else
        ⟨timer_stop_and_blank { s with
            st := St.menu, chosen_slot := -1, amtbuf := [],
            index_timer_active := false }, t0, evs0⟩
    else
      ⟨{ s with
          st := St.svcMenu, selbuf := [], svcbuf := [],
          svc_disp_slot := -1, restock_slot := -1 }, t0, evs0⟩
  else if isdigit k then
    if s.service_mode = 0 then
      if s.st = St.menu then
        let sel1 := if s.selbuf.length < 4 then s.selbuf ++ [k] else s.selbuf
        let s1 := { s with selbuf := sel1 }
        if s1.index_timer_active = false ∧ sel1.length > 0 then
          let s2 := timer_start_or_reset { s1 with index_timer_active := true } (t0 / 1000)
          ⟨timer_update_display s2 (t0 / 1000), t0, evs0⟩
        else ⟨s1, t0, evs0⟩
      else if s.st = St.amount then
        ⟨{ s with amtbuf := if s.amtbuf.length < 3 then s.amtbuf ++ [k] else s.amtbuf },
          t0, evs0⟩
      else if s.st = St.pay then
        let pz := if k = '0' then s.pay_zero_count + 1 else 0
        if pz ≥ 2 then
          ⟨{ s with
              pay_zero_count := pz, st := St.dispensing,
              disp := { s.disp with oneshot_done := false, active := false } },
            t0, evs0 ++ [Ev.beepPaymentOk]⟩
        else
          ⟨{ s with pay_zero_count := pz }, t0, evs0⟩
      else ⟨s, t0, evs0⟩
    else
      if s.st = St.svcMenu then
        ⟨{ s with selbuf := if s.selbuf.length < 4 then s.selbuf ++ [k] else s.selbuf },
          t0, evs0⟩
      else
        ⟨{ s with svcbuf := if s.svcbuf.length < 4 then s.svcbuf ++ [k] else s.svcbuf },
          t0, evs0⟩
  else if k = 'B' then
    enterKey fuel s t0
  else
    ⟨s, t0, evs0 ++ [Ev.beepError]⟩

/-! ## One poll-loop iteration (lines 676-1277 of `main`) -/

/-- One iteration of the `while (1)` poll loop.  `t0` is the microsecond clock
at the top of the iteration, `key` the result of the (non-blocking) keypad
scan this iteration would observe, `fuel` bounds the animation drain loop of
`ST_DISPENSING`. -/
def loop_iter (fuel : Nat) (s : Sys) (t0 : Int) (key : Option Char) : Step :=
  let tm := t0 / 1000
  -- tick animations globally
  let s := { s with door := (anim_tick s.door tm).1, disp := (anim_tick s.disp tm).1 }
  -- door transitions
  let s :=
    if s.st = St.doorOpening ∧ s.door.oneshot_done = true then
      { s with st := St.svcMenu, selbuf := [] }
    else s
  let s :=
    if s.st = St.doorClosing ∧ s.door.oneshot_done = true then
      timer_stop_and_blank { s with
          service_mode := 0, ports := set_port_mapping false,
          st := St.menu, selbuf := [], amtbuf := [], chosen_slot := -1,
          index_timer_active := false }
    else s
  -- gate timeouts
  if s.st = St.svcGate ∧ s.svc_gate_deadline > 0 ∧ tm ≥ s.svc_gate_deadline then
    ⟨{ s with
        svc_gate_deadline := 0, ports := set_port_mapping false,
        service_mode := 0, st := St.menu }, t0, [Ev.beepError]⟩
  else if s.st = St.returnGate ∧ s.return_gate_deadline > 0 ∧ tm ≥ s.return_gate_deadline then
    ⟨{ s with
        return_gate_deadline := 0, service_mode := 1,
        ports := set_port_mapping true, st := St.svcMenu }, t0, [Ev.beepError]⟩
  else
    -- 7-seg behavior: service blink, or idle countdown display and expiry
    let timerActive := s.st = St.amount ∨ s.st = St.pay ∨
      (s.st = St.menu ∧ s.index_timer_active = true)
    let s1 := if s.service_mode ≠ 0 then service_blink_tick s tm
              else if timerActive then timer_update_display s tm else s
    if s.service_mode = 0 ∧ timerActive ∧ timer_seconds_left s.idle_deadline tm = 0 then
      ⟨timer_stop_and_blank { s1 with
          st := St.menu, selbuf := [], amtbuf := [],
          chosen_slot := -1, index_timer_active := false }, t0, [Ev.beepError]⟩
    else if s1.st = St.dispensing then
      let r := st_dispensing_burst fuel s1.amount s1.disp_phase s1.disp t0
      let s2 := timer_stop_and_blank { s1 with
          items := decStockClamp s1.items s1.chosen_slot s1.amount,
          st := St.menu, chosen_slot := -1, amount := 0, pay_zero_count := 0,
          selbuf := [], amtbuf := [], index_timer_active := false,
          disp := { r.2.1 with oneshot_done := false }, disp_phase := r.1 }
      ⟨s2, r.2.2.1 + 5000000, r.2.2.2.map Ev.motorWrite ++ [Ev.beepSuccess]⟩
    else
      match key with
      | none => ⟨s1, t0 + 20000, []⟩
      | some k => dispatchKey fuel s1 t0 k

/-- Iterated poll loop driven by a script of scan results. -/
def runKeys (fuel : Nat) : Sys → Int → List (Option Char) → Sys × Int
  | s, t, [] => (s, t)
  | s, t, k :: rest =>
    let r := loop_iter fuel s t k
    runKeys fuel r.sys r.clk rest

/-! ## Invariants and canonical states -/

/-- Invariant of the dispensing animation track inside a burst: either already
complete, or armed forward over the four 800 ms frames with the next due time
at most one cadence in the future (`now` in ms). -/
def AnimDrainInv (a : Anim) (now : Int) : Prop :=
  a.oneshot_done = true ∨
    (a.active = true ∧ a.oneshot_done = false ∧ a.direction = 1 ∧ a.nframes = 4 ∧
      0 ≤ a.idx ∧ a.idx ≤ 3 ∧ a.frame_ms = 800 ∧ a.next_ms ≤ now + 800)

/-- Every catalog stock lies in `[0, 15]`. -/
def stocksBounded (items : List Item) : Prop :=
  ∀ it ∈ items, 0 ≤ it.stock ∧ it.stock ≤ 15

/-- System invariant for the stock-bound claim: bounded stocks, a non-negative
`amount`, and a digit-only amount buffer (`amount` is only ever assigned
`atoi(amtbuf)` or `0`). -/
def SysInv (s : Sys) : Prop :=
  stocksBounded s.items ∧ 0 ≤ s.amount ∧ digitsOnly s.amtbuf

instance (items : List Item) : Decidable (stocksBounded items) := by
  unfold stocksBounded; infer_instance

instance (s : Sys) : Decidable (SysInv s) := by
  unfold SysInv; infer_instance

/-- Canonical SERVICE-mode menu state (the state reached when the door-opening
animation completes after gate entry). -/
def svcMenuSys : Sys :=
  { initSys with st := St.svcMenu, service_mode := 1, ports := PORTS_ADMIN }

/-- Canonical PAY state with a selected in-stock item and a pending countdown. -/
def paySys : Sys :=
  { initSys with
    st := St.pay, chosen_slot := 0, amount := 1,
    idle_deadline := 1000000, last_shown := 9 }

/-- Canonical AMOUNT state: Cheetos (slot 0, stock 1) chosen, amount buffer
holding `"9"` (more than the stock). -/
def amountSys : Sys :=
  { initSys with
    st := St.amount, chosen_slot := 0, amtbuf := ['9'],
    idle_deadline := 1000000, last_shown := 9 }

/-- Canonical SERVICE-GATE state (as produced by confirming `1234` from MENU). -/
def svcGateSys : Sys :=
  { initSys with st := St.svcGate, svc_gate_deadline := 8120, ports := PORTS_ADMIN }

/-- Canonical RETURN-GATE state (as produced by confirming `1234` from SVC-MENU). -/
def returnGateSys : Sys :=
  { svcMenuSys with st := St.returnGate, return_gate_deadline := 8120, ports := PORTS_NORMAL }

/-! # Theorems -/

/-! ## Animation tick characterization -/

/-- A tick on a completed track is a no-op. -/
theorem anim_tick_done {a : Anim} (t : Int) (hd : a.oneshot_done = true) :
    anim_tick a t = (a, none) := by
  unfold anim_tick
  rw [if_pos (Or.inr hd)]

/-- A tick on an inactive track is a no-op. -/
theorem anim_tick_inactive {a : Anim} (t : Int) (ha : a.active = false) :
    anim_tick a t = (a, none) := by
  unfold anim_tick
  rw [if_pos (Or.inl ha)]

/-- A tick before the due time is a no-op. -/
theorem anim_tick_early {a : Anim} (t : Int) (ha : a.active = true)
    (hd : a.oneshot_done = false) (h : t < a.next_ms) :
    anim_tick a t = (a, none) := by
  unfold anim_tick
  rw [if_neg (by simp [ha, hd]), if_pos h]

/-- A due forward tick on a non-terminal frame: shows the current frame,
advances the index by one, reschedules one cadence later. -/
theorem anim_tick_due_fwd_mid {a : Anim} (t : Int) (ha : a.active = true)
    (hd : a.oneshot_done = false) (hdir : 0 < a.direction) (h : a.next_ms ≤ t)
    (hterm : a.idx ≠ a.nframes - 1) :
    anim_tick a t = ({ a with next_ms := t + a.frame_ms, idx := a.idx + 1 }, some a.idx) := by
  unfold anim_tick
  rw [if_neg (by simp [ha, hd]), if_neg (not_lt.mpr h)]
  simp only [if_pos hdir, if_neg hterm]

/-- A due forward tick on the last frame: shows it, keeps the index, marks the
run complete and inactive. -/
theorem anim_tick_due_fwd_last {a : Anim} (t : Int) (ha : a.active = true)
    (hd : a.oneshot_done = false) (hdir : 0 < a.direction) (h : a.next_ms ≤ t)
    (hterm : a.idx = a.nframes - 1) :
    anim_tick a t =
      ({ a with next_ms := t + a.frame_ms, oneshot_done := true, active := false }, some a.idx) := by
  unfold anim_tick
  rw [if_neg (by simp [ha, hd]), if_neg (not_lt.mpr h)]
  simp only [if_pos hdir, if_pos hterm]

/-- A due backward tick on a non-terminal frame. -/
theorem anim_tick_due_bwd_mid {a : Anim} (t : Int) (ha : a.active = true)
    (hd : a.oneshot_done = false) (hdir : ¬ 0 < a.direction) (h : a.next_ms ≤ t)
    (hterm : a.idx ≠ 0) :
    anim_tick a t = ({ a with next_ms := t + a.frame_ms, idx := a.idx - 1 }, some a.idx) := by
  unfold anim_tick
  rw [if_neg (by simp [ha, hd]), if_neg (not_lt.mpr h)]
  simp only [if_neg hdir, if_neg hterm]

/-- A due backward tick on frame 0: shows it, keeps the index, completes. -/
theorem anim_tick_due_bwd_last {a : Anim} (t : Int) (ha : a.active = true)
    (hd : a.oneshot_done = false) (hdir : ¬ 0 < a.direction) (h : a.next_ms ≤ t)
    (hterm : a.idx = 0) :
    anim_tick a t =
      ({ a with next_ms := t + a.frame_ms, oneshot_done := true, active := false }, some a.idx) := by
  unfold anim_tick
  rw [if_neg (by simp [ha, hd]), if_neg (not_lt.mpr h)]
  simp only [if_neg hdir, if_pos hterm]

/-- Claim C4 (amended), the tick/arm contract of the animation scheduler: a
tick on a completed or idle track is a no-op; a tick before the due time is a
no-op; a due tick displays the current frame and, when the current frame is
not the directionally-terminal one, advances the index by exactly one step in
the configured direction leaving the completion flag clear; when the current
frame is the terminal one it instead leaves the index unchanged and sets the
completion flag (so the flag is set exactly once per arm, exactly at the tick
that shows the terminal frame, and every later tick is a no-op). -/
theorem C4_anim_tick_contract (a : Anim) (t : Int) :
    (a.oneshot_done = true → anim_tick a t = (a, none)) ∧
    (a.active = false → anim_tick a t = (a, none)) ∧
    (a.active = true → a.oneshot_done = false →
      (t < a.next_ms → anim_tick a t = (a, none)) ∧
      (a.next_ms ≤ t →
        (anim_tick a t).2 = some a.idx ∧
        (0 < a.direction →
          (a.idx ≠ a.nframes - 1 →
            (anim_tick a t).1.idx = a.idx + 1 ∧
            (anim_tick a t).1.oneshot_done = false ∧
            (anim_tick a t).1.active = true) ∧
          (a.idx = a.nframes - 1 →
            (anim_tick a t).1.idx = a.idx ∧
            (anim_tick a t).1.oneshot_done = true ∧
            (anim_tick a t).1.active = false)) ∧
        (¬ 0 < a.direction →
          (a.idx ≠ 0 →
            (anim_tick a t).1.idx = a.idx - 1 ∧
            (anim_tick a t).1.oneshot_done = false ∧
            (anim_tick a t).1.active = true) ∧
          (a.idx = 0 →
            (anim_tick a t).1.idx = a.idx ∧
            (anim_tick a t).1.oneshot_done = true ∧
            (anim_tick a t).1.active = false)))) := by
  refine ⟨fun hd => anim_tick_done t hd, fun ha => anim_tick_inactive t ha, fun ha hd => ?_⟩
  refine ⟨fun h => anim_tick_early t ha hd h, fun h => ?_⟩
  refine ⟨?_, fun hdir => ⟨fun hterm => ?_, fun hterm => ?_⟩, fun hdir => ⟨fun hterm => ?_, fun hterm => ?_⟩⟩
  · by_cases hdir : 0 < a.direction
    · by_cases hterm : a.idx = a.nframes - 1
      · rw [anim_tick_due_fwd_last t ha hd hdir h hterm]
      · rw [anim_tick_due_fwd_mid t ha hd hdir h hterm]
    · by_cases hterm : a.idx = 0
      · rw [anim_tick_due_bwd_last t ha hd hdir h hterm]
      · rw [anim_tick_due_bwd_mid t ha hd hdir h hterm]
  · rw [anim_tick_due_fwd_mid t ha hd hdir h hterm]; exact ⟨rfl, hd, ha⟩
  · rw [anim_tick_due_fwd_last t ha hd hdir h hterm]; exact ⟨rfl, rfl, rfl⟩
  · rw [anim_tick_due_bwd_mid t ha hd hdir h hterm]; exact ⟨rfl, hd, ha⟩
  · rw [anim_tick_due_bwd_last t ha hd hdir h hterm]; exact ⟨rfl, rfl, rfl⟩

/-- Witness for `C4_anim_tick_contract` at a freshly armed 4-frame forward
track: an early tick is a no-op and the first due tick shows frame 0 and
advances to frame 1. -/
theorem C4_anim_tick_contract_witness :
    anim_tick (anim_start 4 1 800 5) 3 = (anim_start 4 1 800 5, none) ∧
    (anim_tick (anim_start 4 1 800 5) 5).2 = some 0 ∧
    (anim_tick (anim_start 4 1 800 5) 5).1.idx = 1 := by
  have h := C4_anim_tick_contract (anim_start 4 1 800 5)
  refine ⟨((h 3).2.2 (by decide) (by decide)).1 (by decide), ?_, ?_⟩
  · exact (((h 5).2.2 (by decide) (by decide)).2 (by decide)).1
  · have h2 := ((((h 5).2.2 (by decide) (by decide)).2 (by decide)).2.1 (by decide)).1 (by decide)
    simpa using h2.1

/-- Claim C4 as stated is false at the terminal frame: for the armed 4-frame
forward door/dispense track that has advanced to its last frame, the due tick
displays frame 3 but does not advance the index by one step (it stays at 3 and
the run is marked complete instead). -/
theorem C4_counterexample :
    (anim_tick (anim_tick (anim_tick (anim_start 4 1 800 0) 0).1 800).1 1600).1.active = true ∧
    (anim_tick (anim_tick (anim_tick (anim_start 4 1 800 0) 0).1 800).1 1600).1.oneshot_done = false ∧
    (anim_tick (anim_tick (anim_tick (anim_start 4 1 800 0) 0).1 800).1 1600).1.idx = 3 ∧
    (anim_tick (anim_tick (anim_tick (anim_start 4 1 800 0) 0).1 800).1 1600).1.next_ms ≤ 2400 ∧
    (anim_tick (anim_tick (anim_tick (anim_tick (anim_start 4 1 800 0) 0).1 800).1 1600).1 2400).2 = some 3 ∧
    ¬ (anim_tick (anim_tick (anim_tick (anim_tick (anim_start 4 1 800 0) 0).1 800).1 1600).1 2400).1.idx =
        (anim_tick (anim_tick (anim_tick (anim_start 4 1 800 0) 0).1 800).1 1600).1.idx + 1 := by
  decide

/-! ## Countdown properties (C5) -/

/-- Claim C5: for a fixed started countdown deadline, `timer_seconds_left` is
monotonically non-increasing in the current time, always in `[0, 9]` (ceiling
of the remaining milliseconds), and `0` from the deadline onwards. -/
theorem C5_seconds_left_props (d t u : Int) (hd : 0 < d) :
    (t ≤ u → timer_seconds_left d u ≤ timer_seconds_left d t) ∧
    0 ≤ timer_seconds_left d t ∧ timer_seconds_left d t ≤ 9 ∧
    (d ≤ t → timer_seconds_left d t = 0) := by
  refine ⟨fun htu => ?_, ?_, ?_, fun hdt => ?_⟩ <;>
    · simp only [timer_seconds_left]
      split_ifs <;> omega

/-- Witness for `C5_seconds_left_props` at deadline 9000: at time 0 the
reading is 9, at time 8500 it is 1, at the deadline it is 0. -/
theorem C5_seconds_left_props_witness :
    (0 : Int) < 9000 ∧ timer_seconds_left 9000 8500 ≤ timer_seconds_left 9000 0 ∧
    0 ≤ timer_seconds_left 9000 0 ∧ timer_seconds_left 9000 0 ≤ 9 ∧
    timer_seconds_left 9000 9000 = 0 := by
  refine ⟨by decide, (C5_seconds_left_props 9000 0 8500 (by decide)).1 (by decide),
    (C5_seconds_left_props 9000 0 8500 (by decide)).2.1,
    (C5_seconds_left_props 9000 0 8500 (by decide)).2.2.1,
    (C5_seconds_left_props 9000 9000 9000 (by decide)).2.2.2 (by decide)⟩

/-! ## Phase sequence lemmas (C6) -/

theorem phaseSeq_length (n : Nat) : ∀ ph, (phaseSeq ph n).length = n := by
  induction n with
  | zero => intro ph; rfl
  | succ n ih => intro ph; simp [phaseSeq, ih]

theorem phaseSeq_mod (n : Nat) : ∀ ph, phaseSeq (ph % 4) n = phaseSeq ph n := by
  induction n with
  | zero => intro ph; rfl
  | succ n ih =>
    intro ph
    simp only [phaseSeq]
    have h1 : ph % 4 % 4 = ph % 4 := by omega
    have h2 : (ph % 4 + 1) % 4 = (ph + 1) % 4 := by omega
    rw [h1, ← ih (ph % 4 + 1), h2, ih (ph + 1)]

theorem phaseSeq_append (m : Nat) : ∀ ph n,
    phaseSeq ph (m + n) = phaseSeq ph m ++ phaseSeq (ph + m) n := by
  induction m with
  | zero => intro ph n; simp [phaseSeq]
  | succ m ih =>
    intro ph n
    have h : m + 1 + n = (m + n) + 1 := by omega
    rw [h]
    simp only [phaseSeq, List.cons_append]
    rw [ih (ph + 1) n]
    have h2 : ph + 1 + m = ph + (m + 1) := by omega
    rw [h2]

theorem phaseSeq_head (ph n : Nat) (h : 0 < n) :
    (phaseSeq ph n).get? 0 = some (ph % 4) := by
  obtain ⟨n1, rfl⟩ : ∃ n1, n = n1 + 1 := ⟨n - 1, by omega⟩
  simp [phaseSeq]

/-- Consecutive entries of `phaseSeq` increase by exactly one modulo 4. -/
theorem phaseSeq_consec (n : Nat) : ∀ ph i, i + 1 < n →
    (phaseSeq ph n).get? (i + 1) =
      ((phaseSeq ph n).get? i).map (fun x => (x + 1) % 4) := by
  induction n with
  | zero => intro ph i h; omega
  | succ n ih =>
    intro ph i h
    cases i with
    | zero =>
      obtain ⟨n1, rfl⟩ : ∃ n1, n = n1 + 1 := ⟨n - 1, by omega⟩
      simp only [phaseSeq, List.get?_cons_succ, List.get?_cons_zero, Option.map_some, Option.map_some', Option.some.injEq]
      omega
    | succ j =>
      simp only [phaseSeq, List.get?_cons_succ]
      exact ih (ph + 1) j (by omega)

/-! ## Motor write characterization of the dispense engine (C6) -/

theorem dispPhaseSteps_writes (n : Nat) : ∀ ph a t, ph < 4 →
    (dispPhaseSteps n ph a t).2.2.2 = phaseSeq ph n ∧
    (dispPhaseSteps n ph a t).1 = (ph + n) % 4 := by
  induction n with
  | zero =>
    intro ph a t h
    refine ⟨rfl, ?_⟩
    simp only [dispPhaseSteps]
    omega
  | succ n ih =>
    intro ph a t h
    simp only [dispPhaseSteps, phaseSeq]
    obtain ⟨ih1, ih2⟩ := ih ((ph + 1) % 4) ((anim_tick a (t / 1000)).1) (t + DISP_PHASE_DELAY_US) (by omega)
    refine ⟨?_, ?_⟩
    · rw [ih1, phaseSeq_mod]
    · rw [ih2]; omega

theorem dispCycleSteps_writes (sN : Nat) : ∀ ph a t, ph < 4 →
    (dispCycleSteps sN ph a t).2.2.2 = phaseSeq ph (4 * sN) ∧
    (dispCycleSteps sN ph a t).1 = ph := by
  induction sN with
  | zero => intro ph a t h; exact ⟨rfl, rfl⟩
  | succ sN ih =>
    intro ph a t h
    simp only [dispCycleSteps]
    obtain ⟨h1, h2⟩ := dispPhaseSteps_writes 4 ph ((anim_tick a (t / 1000)).1) t h
    rw [h1, h2]
    have hp : (ph + 4) % 4 = ph := by omega
    rw [hp]
    obtain ⟨i1, i2⟩ := ih ph
      ((dispPhaseSteps 4 ph ((anim_tick a (t / 1000)).1) t).2.1)
      ((dispPhaseSteps 4 ph ((anim_tick a (t / 1000)).1) t).2.2.1) h
    rw [i1, i2]
    refine ⟨?_, rfl⟩
    have hm : 4 * (sN + 1) = 4 + 4 * sN := by omega
    rw [hm, phaseSeq_append 4 ph (4 * sN), ← phaseSeq_mod (4 * sN) (ph + 4), hp]

theorem dispenseUnits_writes (n : Nat) : ∀ ph a t, ph < 4 →
    (dispenseUnits n ph a t).2.2.2 = phaseSeq ph (n * (4 * TOTAL_STEPS_PER_ITEM)) ∧
    (dispenseUnits n ph a t).1 = ph := by
  induction n with
  | zero => intro ph a t h; exact ⟨rfl, rfl⟩
  | succ n ih =>
    intro ph a t h
    simp only [dispenseUnits, run_one_dispense_cycle_with_anim]
    obtain ⟨h1, h2⟩ := dispCycleSteps_writes TOTAL_STEPS_PER_ITEM ph a t h
    rw [h1, h2]
    obtain ⟨i1, i2⟩ := ih ph
      ((dispCycleSteps TOTAL_STEPS_PER_ITEM ph a t).2.1) _ h
    rw [i1, i2]
    refine ⟨?_, rfl⟩
    have hm : (n + 1) * (4 * TOTAL_STEPS_PER_ITEM) =
        4 * TOTAL_STEPS_PER_ITEM + n * (4 * TOTAL_STEPS_PER_ITEM) := by ring
    rw [hm, phaseSeq_append (4 * TOTAL_STEPS_PER_ITEM) ph,
      ← phaseSeq_mod (n * (4 * TOTAL_STEPS_PER_ITEM)) (ph + 4 * TOTAL_STEPS_PER_ITEM)]
    have hp : (ph + 4 * TOTAL_STEPS_PER_ITEM) % 4 = ph := by
      simp only [TOTAL_STEPS_PER_ITEM]; omega
    rw [hp]

/-! ## Animation invariant and drain-loop completion (C6) -/

theorem DISP_PHASE_DELAY_US_val : DISP_PHASE_DELAY_US = 12500 := by decide

theorem animInv_mono {a : Anim} {n1 n2 : Int} (h : n1 ≤ n2) :
    AnimDrainInv a n1 → AnimDrainInv a n2 := by
  intro hi
  rcases hi with hd | ⟨h1, h2, h3, h4, h5, h6, h7, h8⟩
  · exact Or.inl hd
  · exact Or.inr ⟨h1, h2, h3, h4, h5, h6, h7, by omega⟩

theorem anim_tick_inv {a : Anim} {now : Int} (h : AnimDrainInv a now) :
    AnimDrainInv (anim_tick a now).1 now := by
  rcases h with hd | ⟨h1, h2, h3, h4, h5, h6, h7, h8⟩
  · rw [anim_tick_done now hd]; exact Or.inl hd
  · by_cases hdue : now < a.next_ms
    · rw [anim_tick_early now h1 h2 hdue]
      exact Or.inr ⟨h1, h2, h3, h4, h5, h6, h7, h8⟩
    · push_neg at hdue
      by_cases hterm : a.idx = a.nframes - 1
      · rw [anim_tick_due_fwd_last now h1 h2 (by omega) hdue hterm]
        exact Or.inl rfl
      · rw [anim_tick_due_fwd_mid now h1 h2 (by omega) hdue hterm]
        rw [h4] at hterm
        refine Or.inr ⟨h1, h2, h3, h4, ?_, ?_, h7, ?_⟩
        · show (0 : Int) ≤ a.idx + 1
          omega
        · show a.idx + 1 ≤ 3
          omega
        · show now + a.frame_ms ≤ now + 800
          omega

theorem anim_start_disp_inv (t : Int) :
    AnimDrainInv (anim_start DISP_N 1 DISP_FRAME_MS (t / 1000)) (t / 1000) := by
  refine Or.inr ⟨rfl, rfl, ?_, ?_, ?_, ?_, ?_, ?_⟩
  · show (if (1 : Int) ≥ 0 then (1 : Int) else -1) = 1
    norm_num
  · rfl
  · show (0 : Int) ≤ if (if (1 : Int) ≥ 0 then (1 : Int) else -1) > 0 then 0 else DISP_N - 1
    norm_num
  · show (if (if (1 : Int) ≥ 0 then (1 : Int) else -1) > 0 then 0 else DISP_N - 1) ≤ 3
    norm_num
  · rfl
  · show t / 1000 ≤ t / 1000 + 800
    omega

theorem dispPhaseSteps_inv (n : Nat) : ∀ ph a t, AnimDrainInv a (t / 1000) →
    AnimDrainInv (dispPhaseSteps n ph a t).2.1 ((dispPhaseSteps n ph a t).2.2.1 / 1000) ∧
    t ≤ (dispPhaseSteps n ph a t).2.2.1 := by
  induction n with
  | zero => intro ph a t h; exact ⟨h, le_refl t⟩
  | succ n ih =>
    intro ph a t h
    simp only [dispPhaseSteps, DISP_PHASE_DELAY_US_val]
    have h1 : AnimDrainInv (anim_tick a (t / 1000)).1 ((t + 12500) / 1000) :=
      animInv_mono (by omega) (anim_tick_inv h)
    obtain ⟨i1, i2⟩ := ih ((ph + 1) % 4) ((anim_tick a (t / 1000)).1) (t + 12500) h1
    exact ⟨i1, by omega⟩

theorem dispCycleSteps_inv (sN : Nat) : ∀ ph a t, AnimDrainInv a (t / 1000) →
    AnimDrainInv (dispCycleSteps sN ph a t).2.1 ((dispCycleSteps sN ph a t).2.2.1 / 1000) ∧
    t ≤ (dispCycleSteps sN ph a t).2.2.1 := by
  induction sN with
  | zero => intro ph a t h; exact ⟨h, le_refl t⟩
  | succ sN ih =>
    intro ph a t h
    simp only [dispCycleSteps]
    obtain ⟨p1, p2⟩ := dispPhaseSteps_inv 4 ph ((anim_tick a (t / 1000)).1) t (anim_tick_inv h)
    obtain ⟨i1, i2⟩ := ih (dispPhaseSteps 4 ph ((anim_tick a (t / 1000)).1) t).1
      (dispPhaseSteps 4 ph ((anim_tick a (t / 1000)).1) t).2.1
      (dispPhaseSteps 4 ph ((anim_tick a (t / 1000)).1) t).2.2.1 p1
    exact ⟨i1, by omega⟩

theorem dispenseUnits_inv (n : Nat) : ∀ ph a t, AnimDrainInv a (t / 1000) →
    AnimDrainInv (dispenseUnits n ph a t).2.1 ((dispenseUnits n ph a t).2.2.1 / 1000) ∧
    t ≤ (dispenseUnits n ph a t).2.2.1 := by
  induction n with
  | zero => intro ph a t h; exact ⟨h, le_refl t⟩
  | succ n ih =>
    intro ph a t h
    simp only [dispenseUnits, run_one_dispense_cycle_with_anim]
    obtain ⟨c1, c2⟩ := dispCycleSteps_inv TOTAL_STEPS_PER_ITEM ph a t h
    have c1m : AnimDrainInv (dispCycleSteps TOTAL_STEPS_PER_ITEM ph a t).2.1
        ((if n = 0 then (dispCycleSteps TOTAL_STEPS_PER_ITEM ph a t).2.2.1
          else (dispCycleSteps TOTAL_STEPS_PER_ITEM ph a t).2.2.1 + 150000) / 1000) := by
      refine animInv_mono ?_ c1
      split <;> omega
    obtain ⟨i1, i2⟩ := ih (dispCycleSteps TOTAL_STEPS_PER_ITEM ph a t).1
      (dispCycleSteps TOTAL_STEPS_PER_ITEM ph a t).2.1
      (if n = 0 then (dispCycleSteps TOTAL_STEPS_PER_ITEM ph a t).2.2.1
        else (dispCycleSteps TOTAL_STEPS_PER_ITEM ph a t).2.2.1 + 150000) c1m
    refine ⟨i1, ?_⟩
    have hle : (dispCycleSteps TOTAL_STEPS_PER_ITEM ph a t).2.2.1 ≤
        (if n = 0 then (dispCycleSteps TOTAL_STEPS_PER_ITEM ph a t).2.2.1
          else (dispCycleSteps TOTAL_STEPS_PER_ITEM ph a t).2.2.1 + 150000) := by
      split <;> omega
    exact le_trans (le_trans c2 hle) i2

/-- A drain loop started on an already-completed track stays completed. -/
theorem drainAnim_of_done (f : Nat) (a : Anim) (t : Int) (hd : a.oneshot_done = true) :
    drainAnim f a t = (a, t) := by
  cases f with
  | zero => rfl
  | succ f => simp only [drainAnim, if_pos hd]

/-- Completion of the drain loop: from an armed forward 4-frame 800 ms track
whose next due time is at most `20·m` ms away (`m ≤ 40`), fuel
`(3 - idx)·41 + m + 1` suffices to reach completion. -/
theorem drainAnim_completes (fuel : Nat) : ∀ (a : Anim) (t : Int) (m : Nat),
    a.active = true → a.oneshot_done = false → a.direction = 1 → a.nframes = 4 →
    0 ≤ a.idx → a.idx ≤ 3 → a.frame_ms = 800 →
    a.next_ms ≤ t / 1000 + 20 * (m : Int) → m ≤ 40 →
    (3 - a.idx) * 41 + (m : Int) + 1 ≤ (fuel : Int) →
    (drainAnim fuel a t).1.oneshot_done = true := by
  induction fuel with
  | zero =>
    intro a t m ha hd hdir hn hi0 hi3 hf hb hm hfuel
    exfalso; omega
  | succ f ih =>
    intro a t m ha hd hdir hn hi0 hi3 hf hb hm hfuel
    rw [show drainAnim (f + 1) a t = drainAnim f (anim_tick a (t / 1000)).1 (t + 20000) from by
      simp [drainAnim, hd]]
    by_cases hdue : t / 1000 < a.next_ms
    · rw [anim_tick_early (t / 1000) ha hd hdue]
      exact ih a (t + 20000) (m - 1) ha hd hdir hn hi0 hi3 hf (by omega) (by omega) (by omega)
    · push_neg at hdue
      by_cases hterm : a.idx = a.nframes - 1
      · rw [anim_tick_due_fwd_last (t / 1000) ha hd (by omega) hdue hterm,
          drainAnim_of_done f _ _ rfl]
      · rw [anim_tick_due_fwd_mid (t / 1000) ha hd (by omega) hdue hterm]
        rw [hn] at hterm
        refine ih _ (t + 20000) 40 ha hd hdir hn ?_ ?_ hf ?_ (by omega) ?_
        · show (0 : Int) ≤ a.idx + 1
          omega
        · show a.idx + 1 ≤ 3
          omega
        · show t / 1000 + a.frame_ms ≤ (t + 20000) / 1000 + 20 * ((40 : Nat) : Int)
          omega
        · show (3 - (a.idx + 1)) * 41 + ((40 : Nat) : Int) + 1 ≤ (f : Int)
          omega

/-! ## Gate-timeout asymmetry (C3) -/

/-- Claim C3: when SERVICE-GATE expires without a keypress the iteration ends
in MENU with mode NORMAL (and the NORMAL port mapping); when RETURN-GATE
expires the iteration instead ends in SVC-MENU with mode SERVICE (and the
ADMIN port mapping). -/
theorem C3_gate_timeout_asymmetry (fuel : Nat) (s : Sys) (t : Int) (k : Option Char) :
    (s.st = St.svcGate → 0 < s.svc_gate_deadline → s.svc_gate_deadline ≤ t / 1000 →
      (loop_iter fuel s t k).sys.st = St.menu ∧
      (loop_iter fuel s t k).sys.service_mode = 0 ∧
      (loop_iter fuel s t k).sys.ports = PORTS_NORMAL) ∧
    (s.st = St.returnGate → 0 < s.return_gate_deadline → s.return_gate_deadline ≤ t / 1000 →
      (loop_iter fuel s t k).sys.st = St.svcMenu ∧
      (loop_iter fuel s t k).sys.service_mode = 1 ∧
      (loop_iter fuel s t k).sys.ports = PORTS_ADMIN) := by
  constructor
  · intro h1 h2 h3
    simp [loop_iter, h1, h2, h3, set_port_mapping]
  · intro h1 h2 h3
    simp [loop_iter, h1, h2, h3, set_port_mapping]

/-! ## Record-update forms of the small state helpers -/

@[simp] theorem timer_start_or_reset_eq (s : Sys) (now : Int) :
    timer_start_or_reset s now = { s with idle_deadline := now + IDLE_MS, last_shown := -1 } := rfl

@[simp] theorem timer_stop_and_blank_eq (s : Sys) :
    timer_stop_and_blank s = { s with idle_deadline := 0, last_shown := -1 } := rfl

@[simp] theorem service_blink_reset_eq (s : Sys) :
    service_blink_reset s = { s with svc_blink_next := 0, svc_blink_on := true } := rfl

@[simp] theorem timer_update_display_eq (s : Sys) (now : Int) :
    timer_update_display s now =
      { s with last_shown :=
          if timer_seconds_left s.idle_deadline now < 0 then s.last_shown
          else if timer_seconds_left s.idle_deadline now ≠ s.last_shown then
            timer_seconds_left s.idle_deadline now
          else s.last_shown } := by
  simp only [timer_update_display]
  split_ifs <;> rfl

@[simp] theorem service_blink_tick_eq (s : Sys) (now : Int) :
    service_blink_tick s now =
      { s with
        svc_blink_next :=
          if s.svc_blink_next = 0 then now + 500
          else if now ≥ s.svc_blink_next then s.svc_blink_next + 500
          else s.svc_blink_next,
        svc_blink_on :=
          if s.svc_blink_next = 0 then true
          else if now ≥ s.svc_blink_next then !s.svc_blink_on
          else s.svc_blink_on } := by
  simp only [service_blink_tick]
  split_ifs <;> rfl

/-- Witness for `C3_gate_timeout_asymmetry` at the canonical gate states with
an expired deadline (8120 ms ≤ 9000 ms). -/
theorem C3_gate_timeout_asymmetry_witness :
    svcGateSys.st = St.svcGate ∧ (0 : Int) < svcGateSys.svc_gate_deadline ∧
    svcGateSys.svc_gate_deadline ≤ 9000000 / 1000 ∧
    (loop_iter 0 svcGateSys 9000000 (some '5')).sys.st = St.menu ∧
    (loop_iter 0 svcGateSys 9000000 (some '5')).sys.service_mode = 0 ∧
    (loop_iter 0 svcGateSys 9000000 (some '5')).sys.ports = PORTS_NORMAL ∧
    returnGateSys.st = St.returnGate ∧ (0 : Int) < returnGateSys.return_gate_deadline ∧
    returnGateSys.return_gate_deadline ≤ 9000000 / 1000 ∧
    (loop_iter 0 returnGateSys 9000000 (some '5')).sys.st = St.svcMenu ∧
    (loop_iter 0 returnGateSys 9000000 (some '5')).sys.service_mode = 1 ∧
    (loop_iter 0 returnGateSys 9000000 (some '5')).sys.ports = PORTS_ADMIN := by
  have h1 := (C3_gate_timeout_asymmetry 0 svcGateSys 9000000 (some '5')).1 rfl
    (by decide) (by decide)
  have h2 := (C3_gate_timeout_asymmetry 0 returnGateSys 9000000 (some '5')).2 rfl
    (by decide) (by decide)
  exact ⟨rfl, by decide, by decide, h1.1, h1.2.1, h1.2.2,
    rfl, by decide, by decide, h2.1, h2.2.1, h2.2.2⟩

/-! ## Expiry handling precedes keypad dispatch (C9) -/

/-- Claim C9: when a gate deadline or the idle countdown has expired by the
start of an iteration, the iteration is identical whether or not a key is
scanned that iteration (the forced reset preempts the keypress), and the
forced transition is taken. -/
theorem C9_expiry_preempts_keypress (fuel : Nat) (s : Sys) (t : Int) (k : Char) :
    (s.st = St.svcGate → 0 < s.svc_gate_deadline → s.svc_gate_deadline ≤ t / 1000 →
      loop_iter fuel s t (some k) = loop_iter fuel s t none ∧
      (loop_iter fuel s t (some k)).sys.st = St.menu) ∧
    (s.st = St.returnGate → 0 < s.return_gate_deadline → s.return_gate_deadline ≤ t / 1000 →
      loop_iter fuel s t (some k) = loop_iter fuel s t none ∧
      (loop_iter fuel s t (some k)).sys.st = St.svcMenu) ∧
    (s.service_mode = 0 →
      (s.st = St.amount ∨ s.st = St.pay ∨ (s.st = St.menu ∧ s.index_timer_active = true)) →
      timer_seconds_left s.idle_deadline (t / 1000) = 0 →
      loop_iter fuel s t (some k) = loop_iter fuel s t none ∧
      (loop_iter fuel s t (some k)).sys.st = St.menu ∧
      (loop_iter fuel s t (some k)).sys.selbuf = [] ∧
      (loop_iter fuel s t (some k)).sys.amtbuf = []) := by
  refine ⟨fun h1 h2 h3 => ?_, fun h1 h2 h3 => ?_, fun h1 h2 h3 => ?_⟩
  · simp [loop_iter, h1, h2, h3]
  · simp [loop_iter, h1, h2, h3]
  · rcases h2 with h2 | h2 | ⟨h2, h2b⟩
    · simp [loop_iter, h1, h2, h3]
    · simp [loop_iter, h1, h2, h3]
    · simp [loop_iter, h1, h2, h2b, h3]

/-- Witness for `C9_expiry_preempts_keypress`: an expired SERVICE-GATE ignores
the scanned key `'5'`. -/
theorem C9_expiry_preempts_keypress_witness :
    svcGateSys.st = St.svcGate ∧ (0 : Int) < svcGateSys.svc_gate_deadline ∧
    svcGateSys.svc_gate_deadline ≤ 9000000 / 1000 ∧
    loop_iter 0 svcGateSys 9000000 (some '5') = loop_iter 0 svcGateSys 9000000 none ∧
    (loop_iter 0 svcGateSys 9000000 (some '5')).sys.st = St.menu := by
  have h := (C9_expiry_preempts_keypress 0 svcGateSys 9000000 '5').1 rfl (by decide) (by decide)
  exact ⟨rfl, by decide, by decide, h.1, h.2⟩

/-! ## Rejection of invalid quantities in AMOUNT (C8) -/

/-- Claim C8: confirming a quantity in AMOUNT that is 0 (or otherwise below
1), above 15, or above the chosen item's stock is rejected: the machine stays
in AMOUNT, the amount buffer is cleared, an error cue sounds, and no stock
changes. -/
theorem C8_amount_rejection (fuel : Nat) (s : Sys) (t : Int)
    (hst : s.st = St.amount) (hmode : s.service_mode = 0)
    (hleft : timer_seconds_left s.idle_deadline (t / 1000) ≠ 0)
    (hbuf : s.amtbuf.length ≠ 0)
    (hrej : bufVal s.amtbuf < 1 ∨ MAX_COUNT < bufVal s.amtbuf ∨
      stockAt s.items s.chosen_slot < bufVal s.amtbuf) :
    (loop_iter fuel s t (some 'B')).sys.st = St.amount ∧
    (loop_iter fuel s t (some 'B')).sys.amtbuf = [] ∧
    (loop_iter fuel s t (some 'B')).sys.items = s.items ∧
    Ev.beepError ∈ (loop_iter fuel s t (some 'B')).evs := by
  rcases hrej with hr | hr | hr
  · simp [loop_iter, dispatchKey, enterKey, isdigit, hst, hmode, hleft, hbuf, hr]
  · simp [loop_iter, dispatchKey, enterKey, isdigit, hst, hmode, hleft, hbuf, hr,
      MAX_COUNT] at *
    simp [hr]
  · by_cases h1 : bufVal s.amtbuf < 1 ∨ MAX_COUNT < bufVal s.amtbuf
    · rcases h1 with h1 | h1 <;>
        simp [loop_iter, dispatchKey, enterKey, isdigit, hst, hmode, hleft, hbuf, h1, MAX_COUNT] at *
          <;> simp [h1]
    · push_neg at h1
      simp [loop_iter, dispatchKey, enterKey, isdigit, hst, hmode, hleft, hbuf, hr,
        MAX_COUNT, h1.2, not_lt.mpr h1.1, not_lt.mpr h1.2]

/-- Witness for `C8_amount_rejection`: requesting 9 of the stock-1 item. -/
theorem C8_amount_rejection_witness :
    amountSys.st = St.amount ∧ amountSys.service_mode = 0 ∧
    timer_seconds_left amountSys.idle_deadline (0 / 1000) ≠ 0 ∧
    amountSys.amtbuf.length ≠ 0 ∧
    stockAt amountSys.items amountSys.chosen_slot < bufVal amountSys.amtbuf ∧
    (loop_iter 0 amountSys 0 (some 'B')).sys.st = St.amount ∧
    (loop_iter 0 amountSys 0 (some 'B')).sys.amtbuf = [] ∧
    (loop_iter 0 amountSys 0 (some 'B')).sys.items = amountSys.items ∧
    Ev.beepError ∈ (loop_iter 0 amountSys 0 (some 'B')).evs := by
  have h := C8_amount_rejection 0 amountSys 0 rfl rfl (by decide) (by decide)
    (Or.inr (Or.inr (by decide)))
  exact ⟨rfl, rfl, by decide, by decide, by decide, h.1, h.2.1, h.2.2.1, h.2.2.2⟩

/-! ## The PAY double-zero counter (C7) -/

/-- Claim C7 (amended): in PAY, two consecutive `'0'` digits trigger
DISPENSING and any other digit pressed between them resets the
consecutive-zero counter; the ENTER key however leaves the counter unchanged
(only an error cue sounds), so `'0'`, ENTER, `'0'` does trigger DISPENSING. -/
theorem C7_pay_zero_counter (fuel : Nat) (s : Sys) (t : Int)
    (hst : s.st = St.pay) (hmode : s.service_mode = 0)
    (hleft : timer_seconds_left s.idle_deadline (t / 1000) ≠ 0) :
    (∀ d, isdigit d = true → d ≠ '0' →
      (loop_iter fuel s t (some d)).sys.st = St.pay ∧
      (loop_iter fuel s t (some d)).sys.pay_zero_count = 0) ∧
    (s.pay_zero_count = 0 →
      (loop_iter fuel s t (some '0')).sys.st = St.pay ∧
      (loop_iter fuel s t (some '0')).sys.pay_zero_count = 1) ∧
    (1 ≤ s.pay_zero_count →
      (loop_iter fuel s t (some '0')).sys.st = St.dispensing) ∧
    ((loop_iter fuel s t (some 'B')).sys.st = St.pay ∧
      (loop_iter fuel s t (some 'B')).sys.pay_zero_count = s.pay_zero_count) := by
  refine ⟨fun d hd hd0 => ?_, fun h0 => ?_, fun h1 => ?_, ?_⟩
  · have hA : ¬ d = 'A' := by
      intro hh; rw [hh] at hd; exact absurd hd (by decide)
    simp [loop_iter, dispatchKey, hst, hmode, hleft, hA, hd, hd0]
  · simp [loop_iter, dispatchKey, isdigit, hst, hmode, hleft, h0]
  · have h2 : 2 ≤ s.pay_zero_count + 1 := by omega
    simp [loop_iter, dispatchKey, isdigit, hst, hmode, hleft, h2]
  · simp [loop_iter, dispatchKey, enterKey, isdigit, hst, hmode, hleft]

/-- Witness for `C7_pay_zero_counter` at the canonical PAY state. -/
theorem C7_pay_zero_counter_witness :
    paySys.st = St.pay ∧ paySys.service_mode = 0 ∧
    timer_seconds_left paySys.idle_deadline (0 / 1000) ≠ 0 ∧
    isdigit '5' = true ∧ ('5' : Char) ≠ '0' ∧
    (loop_iter 0 paySys 0 (some '5')).sys.st = St.pay ∧
    (loop_iter 0 paySys 0 (some '5')).sys.pay_zero_count = 0 ∧
    (loop_iter 0 paySys 0 (some 'B')).sys.st = St.pay ∧
    (loop_iter 0 paySys 0 (some 'B')).sys.pay_zero_count = paySys.pay_zero_count := by
  have h := C7_pay_zero_counter 0 paySys 0 rfl rfl (by decide)
  have h5 := h.1 '5' (by decide) (by decide)
  exact ⟨rfl, rfl, by decide, by decide, by decide, h5.1, h5.2, h.2.2.2.1, h.2.2.2.2⟩

/-- Claim C7 as stated is false for the ENTER key: from the canonical PAY
state with a zero counter, the key sequence `'0'`, ENTER, `'0'` ends in
DISPENSING even though a non-`'0'` key was pressed between the two zeros
(ENTER does not reset the counter). -/
theorem C7_counterexample :
    paySys.st = St.pay ∧ paySys.pay_zero_count = 0 ∧
    (runKeys 0 paySys 0 [some '0']).1.pay_zero_count = 1 ∧
    (runKeys 0 paySys 0 [some '0', some 'B']).1.st = St.pay ∧
    (runKeys 0 paySys 0 [some '0', some 'B']).1.pay_zero_count = 1 ∧
    (runKeys 0 paySys 0 [some '0', some 'B', some '0']).1.st = St.dispensing := by
  decide

/-! ## Projection distribution over branches -/

theorem Step_sys_ite (c : Prop) [Decidable c] (a b : Step) :
    (if c then a else b).sys = if c then a.sys else b.sys := apply_ite Step.sys c a b

theorem Step_evs_ite (c : Prop) [Decidable c] (a b : Step) :
    (if c then a else b).evs = if c then a.evs else b.evs := apply_ite Step.evs c a b

theorem Sys_st_ite (c : Prop) [Decidable c] (a b : Sys) :
    (if c then a else b).st = if c then a.st else b.st := apply_ite Sys.st c a b

theorem Sys_mode_ite (c : Prop) [Decidable c] (a b : Sys) :
    (if c then a else b).service_mode = if c then a.service_mode else b.service_mode :=
  apply_ite Sys.service_mode c a b

theorem Sys_ports_ite (c : Prop) [Decidable c] (a b : Sys) :
    (if c then a else b).ports = if c then a.ports else b.ports := apply_ite Sys.ports c a b

theorem Sys_items_ite (c : Prop) [Decidable c] (a b : Sys) :
    (if c then a else b).items = if c then a.items else b.items := apply_ite Sys.items c a b

theorem Sys_amount_ite (c : Prop) [Decidable c] (a b : Sys) :
    (if c then a else b).amount = if c then a.amount else b.amount := apply_ite Sys.amount c a b

theorem Sys_amtbuf_ite (c : Prop) [Decidable c] (a b : Sys) :
    (if c then a else b).amtbuf = if c then a.amtbuf else b.amtbuf := apply_ite Sys.amtbuf c a b

theorem Sys_selbuf_ite (c : Prop) [Decidable c] (a b : Sys) :
    (if c then a else b).selbuf = if c then a.selbuf else b.selbuf := apply_ite Sys.selbuf c a b

/-! ## Mode/port-mapping change triggers (C1) -/

set_option maxHeartbeats 1000000 in
/-- ENTER never changes `service_mode`. -/
theorem enterKey_mode (fuel : Nat) (s : Sys) (t : Int) :
    (enterKey fuel s t).sys.service_mode = s.service_mode := by
  simp only [enterKey, timer_update_display_eq, timer_start_or_reset_eq, timer_stop_and_blank_eq,
    Step_sys_ite, Sys_mode_ite, ite_self]

set_option maxHeartbeats 1000000 in
/-- ENTER changes the port mapping only at the two `1234` code confirmations. -/
theorem enterKey_ports (fuel : Nat) (s : Sys) (t : Int)
    (hmenu : s.st = St.menu → s.selbuf ≠ ['1', '2', '3', '4'])
    (hsvc : s.st = St.svcMenu → s.selbuf ≠ ['1', '2', '3', '4']) :
    (enterKey fuel s t).sys.ports = s.ports := by
  simp only [enterKey, timer_update_display_eq, timer_start_or_reset_eq, timer_stop_and_blank_eq,
    Step_sys_ite, Sys_ports_ite, ite_self]
  split_ifs <;>
    first
      | rfl
      | exact absurd (by assumption) (hmenu (by assumption))
      | exact absurd (by assumption) (hsvc (by assumption))

set_option maxHeartbeats 1000000 in
/-- Key dispatch preserves `service_mode` except at a SERVICE-GATE confirmation. -/
theorem dispatchKey_mode (fuel : Nat) (s : Sys) (t : Int) (k : Char)
    (h3 : s.st ≠ St.svcGate) :
    (dispatchKey fuel s t k).sys.service_mode = s.service_mode := by
  simp only [dispatchKey, timer_update_display_eq, timer_start_or_reset_eq,
    timer_stop_and_blank_eq, service_blink_reset_eq,
    Step_sys_ite, Sys_mode_ite, ite_self, enterKey_mode]
  first
    | rfl
    | split_ifs <;> first | exact absurd (by assumption) h3 | rfl

set_option maxHeartbeats 1000000 in
/-- Key dispatch preserves the port mapping except at a SERVICE-GATE
confirmation and the two `1234` code confirmations. -/
theorem dispatchKey_ports (fuel : Nat) (s : Sys) (t : Int) (k : Char)
    (hmenu : s.st = St.menu → s.selbuf ≠ ['1', '2', '3', '4'])
    (hsvc : s.st = St.svcMenu → s.selbuf ≠ ['1', '2', '3', '4']) :
    (dispatchKey fuel s t k).sys.ports = s.ports := by
  simp only [dispatchKey, timer_update_display_eq, timer_start_or_reset_eq,
    timer_stop_and_blank_eq, service_blink_reset_eq,
    Step_sys_ite, Sys_ports_ite, ite_self, enterKey_ports fuel s t hmenu hsvc]

set_option maxHeartbeats 2000000 in
/-- An iteration that starts outside MENU, SVC-MENU, the two gates and
DOOR-CLOSING changes neither `service_mode` nor the port mapping. -/
theorem loop_iter_mode_ports_preserved (fuel : Nat) (s : Sys) (t : Int) (k : Option Char)
    (h1 : s.st ≠ St.menu) (h2 : s.st ≠ St.svcMenu) (h3 : s.st ≠ St.svcGate)
    (h4 : s.st ≠ St.returnGate) (h5 : s.st ≠ St.doorClosing) :
    (loop_iter fuel s t k).sys.service_mode = s.service_mode ∧
    (loop_iter fuel s t k).sys.ports = s.ports := by
  rcases k with _ | c <;> cases hst : s.st <;>
    first
      | exact absurd hst h1
      | exact absurd hst h2
      | exact absurd hst h3
      | exact absurd hst h4
      | exact absurd hst h5
      | by_cases hdone : (anim_tick s.door (t / 1000)).1.oneshot_done = true <;>
          simp [loop_iter, hst, hdone, dispatchKey_mode, dispatchKey_ports,
            Step_sys_ite, Sys_mode_ite, Sys_ports_ite, Sys_st_ite, Sys_selbuf_ite, ite_self]

/-- Claim C1 (amended): `service_mode` and the hardware port mapping change
only in iterations that start in MENU (code-entry confirmation switches the
mapping), SVC-MENU (code-entry confirmation switches it back), SERVICE-GATE
(a keypress confirmation flips the mode to SERVICE, a timeout reverts the
mapping), RETURN-GATE (a timeout restores the SERVICE mapping and mode) or
DOOR-CLOSING (completion reverts mode and mapping to NORMAL); in particular a
completed DOOR-OPENING animation changes neither. -/
theorem C1_mode_port_change_triggers (fuel : Nat) (s : Sys) (t : Int) (k : Option Char) :
    ((loop_iter fuel s t k).sys.service_mode ≠ s.service_mode ∨
        (loop_iter fuel s t k).sys.ports ≠ s.ports →
      s.st = St.menu ∨ s.st = St.svcMenu ∨ s.st = St.svcGate ∨ s.st = St.returnGate ∨
        s.st = St.doorClosing) ∧
    (s.st = St.doorOpening →
      (loop_iter fuel s t k).sys.service_mode = s.service_mode ∧
      (loop_iter fuel s t k).sys.ports = s.ports) := by
  constructor
  · intro h
    by_contra hc
    push_neg at hc
    obtain ⟨h1, h2, h3, h4, h5⟩ := hc
    obtain ⟨e1, e2⟩ := loop_iter_mode_ports_preserved fuel s t k h1 h2 h3 h4 h5
    rcases h with h | h
    · exact h e1
    · exact h e2
  · intro hdo
    exact loop_iter_mode_ports_preserved fuel s t k (by simp [hdo]) (by simp [hdo])
      (by simp [hdo]) (by simp [hdo]) (by simp [hdo])

/-- Witness for `C1_mode_port_change_triggers`: the keypress that confirms
SERVICE-GATE changes the mode, and the start state is indeed one of the five
trigger states (SERVICE-GATE). -/
theorem C1_mode_port_change_triggers_witness :
    ((loop_iter 0 svcGateSys 0 (some '7')).sys.service_mode ≠ svcGateSys.service_mode ∨
      (loop_iter 0 svcGateSys 0 (some '7')).sys.ports ≠ svcGateSys.ports) ∧
    (svcGateSys.st = St.menu ∨ svcGateSys.st = St.svcMenu ∨ svcGateSys.st = St.svcGate ∨
      svcGateSys.st = St.returnGate ∨ svcGateSys.st = St.doorClosing) := by
  have h := (C1_mode_port_change_triggers 0 svcGateSys 0 (some '7')).1
  exact ⟨Or.inl (by decide), h (Or.inl (by decide))⟩

/-- Claim C1 as stated is false on the code: in the reachable run that types
`1234` from MENU and confirms, the ENTER iteration starts in MENU with the
door animation never armed, yet it switches the port mapping from the NORMAL
to the ADMIN set; the following SERVICE-GATE keypress iteration then flips
`service_mode` to SERVICE while the door-opening animation has only just been
armed and is not complete. -/
theorem C1_counterexample :
    (runKeys 0 initSys 0 [some '1', some '2', some '3', some '4']).1.st = St.menu ∧
    (runKeys 0 initSys 0 [some '1', some '2', some '3', some '4']).1.ports = PORTS_NORMAL ∧
    (runKeys 0 initSys 0 [some '1', some '2', some '3', some '4']).1.door = animZero ∧
    (runKeys 0 initSys 0
      [some '1', some '2', some '3', some '4', some 'B']).1.ports = PORTS_ADMIN ∧
    (runKeys 0 initSys 0
      [some '1', some '2', some '3', some '4', some 'B']).1.st = St.svcGate ∧
    (runKeys 0 initSys 0
      [some '1', some '2', some '3', some '4', some 'B']).1.service_mode = 0 ∧
    (runKeys 0 initSys 0
      [some '1', some '2', some '3', some '4', some 'B', some '7']).1.service_mode = 1 ∧
    (runKeys 0 initSys 0
      [some '1', some '2', some '3', some '4', some 'B', some '7']).1.st = St.doorOpening ∧
    (runKeys 0 initSys 0
      [some '1', some '2', some '3', some '4', some 'B', some '7']).1.door.oneshot_done
      = false := by
  decide

/-! ## Stock bound invariant (C10) -/

theorem digitsOnly_nil : digitsOnly [] := by
  intro c hc
  exact absurd hc (List.not_mem_nil c)

theorem digitsOnly_append {buf : List Char} {c : Char}
    (h : digitsOnly buf) (hc : isdigit c = true) : digitsOnly (buf ++ [c]) := by
  intro d hd
  rcases List.mem_append.mp hd with hd | hd
  · exact h d hd
  · rw [List.mem_singleton.mp hd]
    exact hc

theorem bufVal_foldl_nonneg (buf : List Char) : ∀ n : Int, 0 ≤ n → digitsOnly buf →
    0 ≤ buf.foldl (fun n c => n * 10 + ((c.toNat : Int) - 48)) n := by
  induction buf with
  | nil => intro n hn _; exact hn
  | cons c rest ih =>
    intro n hn h
    have hc : isdigit c = true := h c (List.mem_cons_self c rest)
    have hrest : digitsOnly rest := fun d hd => h d (List.mem_cons_of_mem c hd)
    simp only [List.foldl_cons]
    refine ih (n * 10 + ((c.toNat : Int) - 48)) ?_ hrest
    simp only [isdigit, Bool.and_eq_true, decide_eq_true_eq] at hc
    omega

theorem bufVal_nonneg {buf : List Char} (h : digitsOnly buf) : 0 ≤ bufVal buf :=
  bufVal_foldl_nonneg buf 0 (le_refl 0) h

theorem stocksBounded_setStockAt (items : List Item) : ∀ (i v : Int),
    stocksBounded items → 1 ≤ v → v ≤ 15 → stocksBounded (setStockAt items i v) := by
  induction items with
  | nil => intro i v h _ _; exact h
  | cons it rest ih =>
    intro i v h hv1 hv2 jt hjt
    simp only [setStockAt] at hjt
    split at hjt
    · rcases List.mem_cons.mp hjt with rfl | hjt
      · constructor <;> simp <;> omega
      · exact h jt (List.mem_cons_of_mem it hjt)
    · rcases List.mem_cons.mp hjt with heq | hjt
      · rw [heq]
        exact h it (List.mem_cons_self it rest)
      · exact ih (i - 1) v (fun u hu => h u (List.mem_cons_of_mem it hu)) hv1 hv2 jt hjt

theorem stocksBounded_decStockClamp (items : List Item) : ∀ (i amt : Int),
    stocksBounded items → 0 ≤ amt → stocksBounded (decStockClamp items i amt) := by
  induction items with
  | nil => intro i amt h _; exact h
  | cons it rest ih =>
    intro i amt h hamt jt hjt
    simp only [decStockClamp] at hjt
    split at hjt
    · rcases List.mem_cons.mp hjt with rfl | hjt
      · have hit := h it (List.mem_cons_self it rest)
        constructor <;> simp <;> split <;> omega
      · exact h jt (List.mem_cons_of_mem it hjt)
    · rcases List.mem_cons.mp hjt with heq | hjt
      · rw [heq]
        exact h it (List.mem_cons_self it rest)
      · exact ih (i - 1) amt (fun u hu => h u (List.mem_cons_of_mem it hu)) hamt jt hjt

theorem SysInv_ite (c : Prop) [Decidable c] (a b : Sys) :
    SysInv (if c then a else b) = if c then SysInv a else SysInv b :=
  apply_ite SysInv c a b

set_option maxHeartbeats 2000000 in
/-- ENTER preserves the stock/amount invariant. -/
theorem enterKey_inv (fuel : Nat) (s : Sys) (t : Int) (h : SysInv s) :
    SysInv (enterKey fuel s t).sys := by
  obtain ⟨hi, ha, hb⟩ := h
  cases hst : s.st <;>
    · simp only [enterKey, hst, timer_update_display_eq, timer_start_or_reset_eq,
        timer_stop_and_blank_eq, Step_sys_ite, SysInv_ite]
      split_ifs <;>
        first
          | exact ⟨hi, ha, hb⟩
          | exact ⟨hi, ha, digitsOnly_nil⟩
          | exact ⟨hi, bufVal_nonneg hb, hb⟩
          | exact ⟨hi, bufVal_nonneg hb, digitsOnly_nil⟩
          | exact ⟨stocksBounded_setStockAt s.items s.restock_slot (bufVal s.svcbuf) hi
              (by omega) (by omega), ha, hb⟩
          | simp_all

set_option maxHeartbeats 2000000 in
/-- Key dispatch preserves the stock/amount invariant. -/
theorem dispatchKey_inv (fuel : Nat) (s : Sys) (t : Int) (k : Char) (h : SysInv s) :
    SysInv (dispatchKey fuel s t k).sys := by
  obtain ⟨hi, ha, hb⟩ := h
  cases hst : s.st <;>
    · simp only [dispatchKey, hst, timer_update_display_eq, timer_start_or_reset_eq,
        timer_stop_and_blank_eq, service_blink_reset_eq, Step_sys_ite, SysInv_ite]
      split_ifs <;>
        first
          | exact ⟨hi, ha, hb⟩
          | exact ⟨hi, ha, digitsOnly_nil⟩
          | exact ⟨hi, ha, digitsOnly_append hb (by assumption)⟩
          | exact enterKey_inv fuel s t ⟨hi, ha, hb⟩
          | simp_all

set_option maxHeartbeats 2000000 in
/-- One poll-loop iteration preserves the stock/amount invariant. -/
theorem loop_iter_inv (fuel : Nat) (s : Sys) (t : Int) (k : Option Char) (h : SysInv s) :
    SysInv (loop_iter fuel s t k).sys := by
  obtain ⟨hi, ha, hb⟩ := h
  rcases k with _ | c <;> cases hst : s.st <;>
    · by_cases hdone : (anim_tick s.door (t / 1000)).1.oneshot_done = true <;>
        · simp only [loop_iter, hst, hdone, timer_update_display_eq, timer_stop_and_blank_eq,
            service_blink_tick_eq, Step_sys_ite, SysInv_ite, Sys_st_ite, Sys_items_ite,
            Sys_amount_ite, Sys_amtbuf_ite, Sys_selbuf_ite, ite_self, if_true, if_false,
            reduceCtorEq, and_true, and_false, true_and, false_and,
            Bool.true_eq_false, Bool.false_eq_true, not_false_eq_true, not_true_eq_false]
          split_ifs <;>
            first
              | exact ⟨hi, ha, hb⟩
              | exact ⟨hi, ha, digitsOnly_nil⟩
              | exact ⟨stocksBounded_decStockClamp _ _ _ hi ha, le_refl 0, digitsOnly_nil⟩
              | exact dispatchKey_inv fuel _ t c ⟨hi, ha, hb⟩
              | exact dispatchKey_inv fuel _ t c ⟨hi, ha, digitsOnly_nil⟩
              | simp_all

/-- Claim C10: every catalog stock stays within `[0, 15]`: it holds in the
initial state (stocks 1-4) and is preserved by every poll-loop iteration —
customer dispensing subtracts a validated amount and clamps at 0, service
restock assigns only values checked to lie in 1-15, and nothing else writes
stock. -/
theorem C10_stock_bounds (fuel : Nat) (s : Sys) (t : Int) (k : Option Char) :
    (stocksBounded initSys.items ∧ SysInv initSys) ∧
    (SysInv s → stocksBounded (loop_iter fuel s t k).sys.items ∧
      SysInv (loop_iter fuel s t k).sys) := by
  exact ⟨⟨by decide, by decide⟩,
    fun h => ⟨(loop_iter_inv fuel s t k h).1, loop_iter_inv fuel s t k h⟩⟩

/-- Witness for `C10_stock_bounds`: the invariant transported through one
iteration from the initial state. -/
theorem C10_stock_bounds_witness :
    SysInv initSys ∧ stocksBounded (loop_iter 0 initSys 0 (some '3')).sys.items := by
  have h := (C10_stock_bounds 0 initSys 0 (some '3')).2 (C10_stock_bounds 0 initSys 0 (some '3')).1.2
  exact ⟨(C10_stock_bounds 0 initSys 0 (some '3')).1.2, h.1⟩

/-! ## Service restock / manual dispense end-to-end (C2) -/

set_option maxRecDepth 100000 in
/-- Claim C2 as stated is false on the code: in SERVICE mode, after restocking
item index 8 (slot 1) to stock 5, a manual service dispense of quantity 5 from
index 8 runs to completion and returns to SVC-MENU with the success cue — but
it leaves the stock at 5, not 0 (the service dispense never writes stock). -/
theorem C2_counterexample :
    stockAt svcMenuSys.items 1 = 2 ∧
    stockAt (runKeys 200 svcMenuSys 0
      [some '2', some 'B', some '8', some 'B', some '5', some 'B']).1.items 1 = 5 ∧
    (loop_iter 200
      (runKeys 200 svcMenuSys 0
        [some '2', some 'B', some '8', some 'B', some '5', some 'B',
         some '1', some 'B', some '8', some 'B', some '5']).1
      (runKeys 200 svcMenuSys 0
        [some '2', some 'B', some '8', some 'B', some '5', some 'B',
         some '1', some 'B', some '8', some 'B', some '5']).2
      (some 'B')).sys.st = St.svcMenu ∧
    Ev.beepSuccess ∈ (loop_iter 200
      (runKeys 200 svcMenuSys 0
        [some '2', some 'B', some '8', some 'B', some '5', some 'B',
         some '1', some 'B', some '8', some 'B', some '5']).1
      (runKeys 200 svcMenuSys 0
        [some '2', some 'B', some '8', some 'B', some '5', some 'B',
         some '1', some 'B', some '8', some 'B', some '5']).2
      (some 'B')).evs ∧
    ¬ stockAt (loop_iter 200
      (runKeys 200 svcMenuSys 0
        [some '2', some 'B', some '8', some 'B', some '5', some 'B',
         some '1', some 'B', some '8', some 'B', some '5']).1
      (runKeys 200 svcMenuSys 0
        [some '2', some 'B', some '8', some 'B', some '5', some 'B',
         some '1', some 'B', some '8', some 'B', some '5']).2
      (some 'B')).sys.items 1 = 0 := by
  decide


set_option maxRecDepth 100000 in
/-- Claim C2 (amended): in SERVICE mode, restocking index 8 to 5 is an
absolute write bounded only by its own 1-15 range check (it overwrites the
previous stock 2 with no stock-sufficiency check), and the subsequent manual
service dispense of quantity 5 from index 8 succeeds — it runs the dispensing
burst (5 × 240 motor phase writes) and returns to SVC-MENU with the success
cue — but leaves that item's stock at 5: the service dispense does not modify
stock. -/
theorem C2_amended :
    stockAt (runKeys 200 svcMenuSys 0
      [some '2', some 'B', some '8', some 'B', some '5', some 'B']).1.items 1 = 5 ∧
    (runKeys 200 svcMenuSys 0
      [some '2', some 'B', some '8', some 'B', some '5', some 'B']).1.st = St.svcMenu ∧
    (loop_iter 200
      (runKeys 200 svcMenuSys 0
        [some '2', some 'B', some '8', some 'B', some '5', some 'B',
         some '1', some 'B', some '8', some 'B', some '5']).1
      (runKeys 200 svcMenuSys 0
        [some '2', some 'B', some '8', some 'B', some '5', some 'B',
         some '1', some 'B', some '8', some 'B', some '5']).2
      (some 'B')).sys.st = St.svcMenu ∧
    Ev.beepSuccess ∈ (loop_iter 200
      (runKeys 200 svcMenuSys 0
        [some '2', some 'B', some '8', some 'B', some '5', some 'B',
         some '1', some 'B', some '8', some 'B', some '5']).1
      (runKeys 200 svcMenuSys 0
        [some '2', some 'B', some '8', some 'B', some '5', some 'B',
         some '1', some 'B', some '8', some 'B', some '5']).2
      (some 'B')).evs ∧
    ((loop_iter 200
      (runKeys 200 svcMenuSys 0
        [some '2', some 'B', some '8', some 'B', some '5', some 'B',
         some '1', some 'B', some '8', some 'B', some '5']).1
      (runKeys 200 svcMenuSys 0
        [some '2', some 'B', some '8', some 'B', some '5', some 'B',
         some '1', some 'B', some '8', some 'B', some '5']).2
      (some 'B')).evs.filter (fun e =>
        match e with
        | Ev.motorWrite _ => true
        | _ => false)).length = 5 * (4 * TOTAL_STEPS_PER_ITEM) ∧
    stockAt (loop_iter 200
      (runKeys 200 svcMenuSys 0
        [some '2', some 'B', some '8', some 'B', some '5', some 'B',
         some '1', some 'B', some '8', some 'B', some '5']).1
      (runKeys 200 svcMenuSys 0
        [some '2', some 'B', some '8', some 'B', some '5', some 'B',
         some '1', some 'B', some '8', some 'B', some '5']).2
      (some 'B')).sys.items 1 = 5 :=
  ⟨by decide, by decide, by decide, by decide, by decide, by decide⟩

/-- Claim C6: for a dispense of `amount ≥ 1` units started on an idle track
(the state `ST_PAY` leaves behind), the motor phase driver is invoked exactly
`amount × 240` times (240 = 4 × 60 steps per unit), the first write continues
from the persisted phase index `ph` (no reset across calls), consecutive
writes increase by exactly one modulo 4 (also across unit boundaries), the
phase index after the burst equals the persisted rotation, and the dispensing
animation has reached completion when the burst returns control. -/
theorem C6_dispense_synchronizer (fuel : Nat) (amount : Int) (ph : Nat) (a : Anim) (t : Int)
    (hamt : 1 ≤ amount) (hph : ph < 4) (ha : a.active = false) (hd : a.oneshot_done = false)
    (hfuel : 164 ≤ fuel) :
    (st_dispensing_burst fuel amount ph a t).2.2.2.length =
      amount.toNat * (4 * TOTAL_STEPS_PER_ITEM) ∧
    (st_dispensing_burst fuel amount ph a t).2.2.2.get? 0 = some ph ∧
    (∀ i, i + 1 < amount.toNat * (4 * TOTAL_STEPS_PER_ITEM) →
      (st_dispensing_burst fuel amount ph a t).2.2.2.get? (i + 1) =
        ((st_dispensing_burst fuel amount ph a t).2.2.2.get? i).map (fun x => (x + 1) % 4)) ∧
    (st_dispensing_burst fuel amount ph a t).1 = ph ∧
    (st_dispensing_burst fuel amount ph a t).2.1.oneshot_done = true := by
  have hiff : a.active = false ∧ a.oneshot_done = false := ⟨ha, hd⟩
  simp only [st_dispensing_burst, if_pos hiff]
  obtain ⟨w1, w2⟩ := dispenseUnits_writes amount.toNat ph
    (anim_start DISP_N 1 DISP_FRAME_MS (t / 1000)) t hph
  obtain ⟨v1, v2⟩ := dispenseUnits_inv amount.toNat ph
    (anim_start DISP_N 1 DISP_FRAME_MS (t / 1000)) t (anim_start_disp_inv t)
  have hn0 : 0 < amount.toNat * (4 * TOTAL_STEPS_PER_ITEM) := by
    have h1 : 1 ≤ amount.toNat := by omega
    simp only [TOTAL_STEPS_PER_ITEM]
    omega
  refine ⟨?_, ?_, ?_, ?_, ?_⟩
  · rw [w1, phaseSeq_length]
  · rw [w1, phaseSeq_head ph _ hn0]
    congr 1
    omega
  · intro i hi
    rw [w1]
    exact phaseSeq_consec _ ph i hi
  · exact w2
  · rcases v1 with hdone | ⟨q1, q2, q3, q4, q5, q6, q7, q8⟩
    · rw [drainAnim_of_done fuel _ _ hdone]
      exact hdone
    · exact drainAnim_completes fuel _ _ 40 q1 q2 q3 q4 q5 q6 q7 (by omega) (by omega)
        (by omega)

/-- Witness for `C6_dispense_synchronizer`: one unit dispensed from phase 0. -/
theorem C6_dispense_synchronizer_witness :
    (st_dispensing_burst 164 1 0 animZero 0).2.2.2.length =
      (1 : Int).toNat * (4 * TOTAL_STEPS_PER_ITEM) ∧
    (st_dispensing_burst 164 1 0 animZero 0).2.2.2.get? 0 = some 0 ∧
    (∀ i, i + 1 < (1 : Int).toNat * (4 * TOTAL_STEPS_PER_ITEM) →
      (st_dispensing_burst 164 1 0 animZero 0).2.2.2.get? (i + 1) =
        ((st_dispensing_burst 164 1 0 animZero 0).2.2.2.get? i).map (fun x => (x + 1) % 4)) ∧
    (st_dispensing_burst 164 1 0 animZero 0).1 = 0 ∧
    (st_dispensing_burst 164 1 0 animZero 0).2.1.oneshot_done = true :=
  C6_dispense_synchronizer 164 1 0 animZero 0 (by decide) (by decide) rfl rfl (by decide)
